import Mathlib

/-!
Verification development for the shopping-aggregation backend
(src/backend/services/product_ranker.js, aggregator.js, aiAdvisor.js).

Shallow embedding conventions:
* JavaScript numbers are modelled as exact rationals (ℚ).  The single point
  where IEEE special values matter for the verified properties is the
  division `price / reference_price` in the value scorer: when the price is
  `0` the reference price is also `0` and JavaScript produces `NaN`, which
  then propagates through `Math.min` and `Math.max`.  We model a possibly-NaN
  number as `Option ℚ` with `none` standing for `NaN`.
* JavaScript strings are modelled as Lean `String`; `toLowerCase`, `slice`,
  `trim` and `includes` are modelled character-wise (the titles, queries and
  keywords involved are plain text, where the two semantics agree).
* Network calls are modelled by passing the provider outcome explicitly as a
  parameter (an inductive of the outcomes distinguished by the code), so the
  embedded functions are total: the try/catch blocks of the source become
  the non-success match arms.
* `Array.prototype.sort` with a consistent comparator is (per the ES2019
  specification) a stable sort; it is modelled by a stable insertion sort
  `jsSort le` where `le a b` means the comparator result on `(a, b)` is
  `≤ 0`, i.e. `a` may stay before `b`.
-/

namespace Findlee

/-- Model of the JavaScript substring test on character lists. -/
def charsContainsSub (needle : List Char) : List Char → Bool
  | [] => needle.isEmpty
  | c :: rest => List.isPrefixOf needle (c :: rest) || charsContainsSub needle rest

/-- Model of `haystack.includes(needle)` for JavaScript strings. -/
def jsIncludes (haystack needle : String) : Bool :=
  charsContainsSub needle.data haystack.data

/-- Model of `s.toLowerCase()` (the strings involved are plain text). -/
def jsToLower (s : String) : String :=
  ⟨s.data.map Char.toLower⟩

/-- Model of `s.slice(0, n)`. -/
def jsSlice (s : String) (n : Nat) : String :=
  ⟨s.data.take n⟩

/-- Model of `s.trim()`: strip whitespace from both ends. -/
def jsTrim (s : String) : String :=
  ⟨((s.data.dropWhile Char.isWhitespace).reverse.dropWhile Char.isWhitespace).reverse⟩

/-- One product listing, as produced by a source adapter (aggregator.js).
Score fields are attached by the ranker on its success path; `none` means
the field is absent (or `NaN`, which only arises for `P_Score`/`CRS` when
the price is `0`, see `p_score`). -/
structure Product where
  id : Option String := none
  title : String := ""
  price : ℚ := 0
  store : String := ""
  link : String := ""
  rating : ℚ := 0
  reviews : ℚ := 0
  discount : ℚ := 0
  image : Option String := none
  CRS : Option ℚ := none
  R_Score : Option ℚ := none
  P_Score : Option ℚ := none
  Irrelevance_Penalty : Option ℚ := none
deriving DecidableEq, Repr

/-! ## product_ranker.js -/

/-- Ranking weight for the relevance score (product_ranker.js line 10). -/
def W_R : ℚ := 3

/-- Ranking weight for the price score (product_ranker.js line 11). -/
def W_P : ℚ := 1

/-- Ranking weight for the irrelevance penalty (product_ranker.js line 12). -/
def W_IR : ℚ := 5

/-- Model of `const reference_price = price > 10000 ? price * 1.15 : price * 2`. -/
def reference_price (price : ℚ) : ℚ :=
  if price > 10000 then price * 1.15 else price * 2

/-- Model of `Math.max(0, Math.min(1, 1 - (price / reference_price)))`.
When `reference_price` is `0` (exactly when `price = 0`) the JavaScript
division gives `NaN`, which propagates through `Math.min` and `Math.max`;
that case is `none`. -/
def p_score (price : ℚ) : Option ℚ :=
  if reference_price price = 0 then none
  else some (max 0 (min 1 (1 - price / reference_price price)))

/-- Model of `String(p.id || index)`: the positional index is used when the
product has no id (or an empty-string id, which is falsy). -/
def jsStableId (p : Product) (index : Nat) : String :=
  match p.id with
  | some s => if s = "" then toString index else s
  | none => toString index

/-- The per-product record built in stage 1 of `rankProducts`
(lines 38-67 of product_ranker.js). -/
structure ProductForAI where
  id : String
  title : String
  store : String
  price : ℚ
  is_accessory : Bool
  p_score : Option ℚ
deriving DecidableEq, Repr

/-- Stage 1 of `rankProducts`: local price-value scoring and the accessory
heuristic over the keyword set case/cable/protector/charger/adapter/cover/stand. -/
def makeProductForAI (p : Product) (index : Nat) : ProductForAI :=
  let id := jsStableId p index
  let price := p.price
  let titleLower := jsToLower p.title
  let is_accessory :=
    jsIncludes titleLower "case" ||
    jsIncludes titleLower "cable" ||
    jsIncludes titleLower "protector" ||
    jsIncludes titleLower "charger" ||
    jsIncludes titleLower "adapter" ||
    jsIncludes titleLower "cover" ||
    jsIncludes titleLower "stand"
  { id := id, title := p.title, store := p.store, price := price,
    is_accessory := is_accessory, p_score := p_score price }

/-- Stage-1 list for a candidate list (`productCandidates.map((p, index) => ...)`). -/
def productsForAI (cands : List Product) : List ProductForAI :=
  cands.enum.map fun pr => makeProductForAI pr.2 pr.1

/-- One entry of the parsed provider score array.  The response schema asks
for `id`, `R_Score` and `Irrelevance_Penalty`; the code tolerates missing
fields via `??`, hence the `Option` fields. -/
structure AIScoreEntry where
  id : String
  R_Score : Option ℚ := none
  Irrelevance_Penalty : Option ℚ := none
deriving DecidableEq, Repr

/-- Outcome of the relevance-scoring provider call, as distinguished by
`rankProducts` (lines 109-136 of product_ranker.js): HTTP failure, response
without the expected text part, text that fails JSON parsing, parsed payload
that is not an array, or a parsed score array. -/
inductive GeminiResponse where
  | httpError : GeminiResponse
  | noResponseText : GeminiResponse
  | parseFailure : GeminiResponse
  | notArray : GeminiResponse
  | parsedArray : List AIScoreEntry → GeminiResponse
deriving DecidableEq, Repr

/-- Return shape of `rankProducts`. -/
structure RankResult where
  rankedProducts : List Product
  crsFailed : Bool
deriving DecidableEq, Repr

/-- Stage 3 of `rankProducts` for one candidate (lines 139-161): look up the
stage-1 record and the provider entry by stable id, default missing provider
scores to the neutral `R_Score = 0.5`, `Irrelevance_Penalty = 0`, and attach
`CRS = Math.max(0, W_R * R_Score + W_P * P_Score - W_IR * Irrelevance_Penalty)`.
`P_Score` is `productData?.p_score ?? 0.0`; a `NaN` price score is not
nullish in JavaScript, so it propagates into `CRS` (both `none` here). -/
def scoreCandidate (pfa : List ProductForAI) (aiScores : List AIScoreEntry)
    (index : Nat) (p : Product) : Product :=
  let id := jsStableId p index
  let productData := pfa.find? fun item => item.id = id
  let aiData := aiScores.find? fun s => s.id = id
  let rScore := match aiData with
    | some e => e.R_Score.getD (1/2)
    | none => 1/2
  let penalty := match aiData with
    | some e => e.Irrelevance_Penalty.getD 0
    | none => 0
  let pScoreOpt : Option ℚ := match productData with
    | some d => d.p_score
    | none => some 0
  { p with
    CRS := pScoreOpt.map fun v => max 0 (W_R * rScore + W_P * v - W_IR * penalty)
    R_Score := some rScore
    P_Score := pScoreOpt
    Irrelevance_Penalty := some penalty }

/-- Comparator model for `rankedProducts.sort((a, b) => b.CRS - a.CRS)`:
`a` may stay before `b` when the comparator is `≤ 0`, i.e. `b.CRS ≤ a.CRS`.
A `NaN` comparator result is treated as `0` by the ES specification, hence
`true` when either score is `NaN`/absent. -/
def crsLe (a b : Product) : Bool :=
  match a.CRS, b.CRS with
  | some x, some y => decide (y ≤ x)
  | _, _ => true

/-- Stable insertion step for the model of `Array.prototype.sort`. -/
def jsInsert (le : α → α → Bool) (a : α) : List α → List α
  | [] => [a]
  | b :: bs => if le a b then a :: b :: bs else b :: jsInsert le a bs

/-- Model of `Array.prototype.sort(cmp)` with `le a b` meaning
`cmp(a, b) ≤ 0`: a stable sort (stable insertion sort). -/
def jsSort (le : α → α → Bool) : List α → List α
  | [] => []
  | a :: as => jsInsert le a (jsSort le as)

/-- Model of `rankProducts` (product_ranker.js).  The provider outcome is an
explicit parameter; every thrown-and-caught path of the source returns the
original candidate list with `crsFailed = true` (lines 27-34 and 172-181). -/
def rankProducts (apiKey query : String) (productCandidates : List Product)
    (resp : GeminiResponse) : RankResult :=
  if apiKey = "" ∨ apiKey = "your_gemini_api_key_here" ∨ productCandidates.length = 0 then
    { rankedProducts := productCandidates, crsFailed := true }
  else
    match resp with
    | .parsedArray aiScores =>
        let pfa := productsForAI productCandidates
        let ranked := productCandidates.enum.map fun pr =>
          scoreCandidate pfa aiScores pr.1 pr.2
        { rankedProducts := jsSort crsLe ranked, crsFailed := false }
    | _ => { rankedProducts := productCandidates, crsFailed := true }

/-! ## aggregator.js -/

/-- Deduplication key (aggregator.js line 29):
`p.title.toLowerCase().slice(0, 50).trim()` paired with the exact price.
The JavaScript key is the string `titlePart + "_" + price`; since the
decimal rendering of a number contains no underscore, that string determines
the (title part, price) pair uniquely, so the pair is a faithful model. -/
def dedupKey (p : Product) : String × ℚ :=
  (jsTrim (jsSlice (jsToLower p.title) 50), p.price)

/-- Recursive model of the `filter` with a mutable `seen` map in
`deduplicateProducts` (aggregator.js lines 26-34). -/
def dedupAux (seen : List (String × ℚ)) : List Product → List Product
  | [] => []
  | p :: rest =>
    if dedupKey p ∈ seen then dedupAux seen rest
    else p :: dedupAux (dedupKey p :: seen) rest

/-- Model of `deduplicateProducts` (aggregator.js lines 26-34). -/
def deduplicateProducts (products : List Product) : List Product :=
  dedupAux [] products

/-- Model of `simpleAccessoryFilter` (aggregator.js lines 40-80): on a
primary-product query, drop products whose title matches the accessory
keyword set case/cover/protector/charger/cable/stand and whose price is
below 1000. -/
def simpleAccessoryFilter (query : String) (products : List Product) : List Product :=
  let queryLower := jsToLower query
  let isPrimaryQuery :=
    !(jsIncludes queryLower "case") &&
    !(jsIncludes queryLower "cover") &&
    !(jsIncludes queryLower "charger") &&
    !(jsIncludes queryLower "cable") &&
    !(jsIncludes queryLower "protector") &&
    !(jsIncludes queryLower "stand")
  if !isPrimaryQuery then products
  else
    products.filter fun p =>
      let titleLower := jsToLower p.title
      let isAccessory :=
        jsIncludes titleLower "case" ||
        jsIncludes titleLower "cover" ||
        jsIncludes titleLower "protector" ||
        jsIncludes titleLower "charger" ||
        jsIncludes titleLower "cable" ||
        jsIncludes titleLower "stand"
      !(isAccessory && decide (p.price < 1000))

/-- Validity filter (aggregator.js line 184):
`item && item.price > 0 && item.title && item.link`. -/
def validProduct (p : Product) : Bool :=
  decide (0 < p.price) && !(p.title = "") && !(p.link = "")

/-- Sort key for `(a.price || Infinity) - (b.price || Infinity)`:
a falsy (zero) price compares as positive infinity. -/
def jsPriceKey (p : Product) : WithTop ℚ :=
  if p.price = 0 then ⊤ else (p.price : WithTop ℚ)

/-- Comparator model for the price-ascending sorts in `getProductResults`. -/
def priceLe (a b : Product) : Bool :=
  decide (jsPriceKey a ≤ jsPriceKey b)

/-- Environment configuration read by the pipeline (process.env). -/
structure Config where
  geminiKey : String := ""
  serpapiKey : String := ""
  useSerpapi : Bool := false
  useDirect : Bool := false
deriving DecidableEq, Repr

/-- Outcome of the text-generation provider call, as distinguished by
`aiVerdict` (aiAdvisor.js lines 79-123): HTTP failure, response without the
expected candidate/content structure, a SAFETY/RECITATION/MAX_TOKENS finish
reason, missing text parts, or a text reply. -/
inductive GenResponse where
  | httpError : GenResponse
  | badStructure : GenResponse
  | blocked : GenResponse
  | noTextParts : GenResponse
  | text : String → GenResponse
deriving DecidableEq, Repr

/-- External inputs of one pipeline run: the two direct-scraper results
(an adapter error or timeout resolves to the empty list, aggregator.js
lines 103-114), the SerpAPI result (`Except` error message on failure), the
two provider outcomes and the measured fetch time. -/
structure FetchEnv where
  amazonItems : List Product := []
  flipkartItems : List Product := []
  serpItems : Except String (List Product) := .error "Timeout"
  rankResp : GeminiResponse := .httpError
  genResp : GenResponse := .httpError
  fetchTime : ℚ := 0
deriving Repr

/-- Per-source report collected for metadata (aggregator.js `sources`). -/
structure SourceReport where
  name : String
  count : Nat
  type : Option String := none
  directLinks : Option Nat := none
  redirectLinks : Option Nat := none
  error : Option String := none
deriving DecidableEq, Repr

/-- The `strategy` block of the result metadata. -/
structure Strategy where
  amazonFlipkartDirect : Bool
  serpApiOthers : Bool
deriving DecidableEq, Repr

/-- The metadata block of an aggregation result.  Fields absent on the
empty-result early return are `Option` with `none` there. -/
structure Metadata where
  totalResults : Nat
  topPrice : Option ℚ := none
  topStore : Option String := none
  rankedByAI : Bool
  fetchTime : ℚ
  directLinks : Nat
  redirectLinks : Nat
  sources : List SourceReport
  strategy : Option Strategy := none
deriving DecidableEq, Repr

/-- The aggregation result returned by `getProductResults`. -/
structure AggregationResult where
  items : List Product
  summary : String
  metadata : Metadata
deriving DecidableEq, Repr

/-- SerpAPI results after removal of stores already covered by the direct
scrapers (aggregator.js lines 150-162). -/
def serpFiltered (cfg : Config) (rs : List Product) : List Product :=
  if cfg.useDirect then
    rs.filter fun p =>
      let store := jsToLower p.store
      !(jsIncludes store "amazon" || jsIncludes store "flipkart")
  else rs

/-- Concatenated adapter outputs (aggregator.js STEP 1 and STEP 2): direct
scraper items first, then the store-filtered SerpAPI items. -/
def gatherItems (cfg : Config) (env : FetchEnv) : List Product :=
  (if cfg.useDirect then env.amazonItems ++ env.flipkartItems else []) ++
  (if cfg.useSerpapi then
    match env.serpItems with
    | .ok rs => serpFiltered cfg rs
    | .error _ => []
  else [])

/-- Source report for one direct scraper (aggregator.js lines 118-130). -/
def directReport (name : String) (data : List Product) : SourceReport :=
  if 0 < data.length then
    { name := name, count := data.length, type := some "direct" }
  else
    { name := name, count := 0, type := some "failed" }

/-- Count of non-redirect links: links not containing "google.com". -/
def countDirectLinks (l : List Product) : Nat :=
  (l.filter fun p => !(jsIncludes p.link "google.com")).length

/-- The `sources` metadata list built during STEP 1 and STEP 2. -/
def gatherSources (cfg : Config) (env : FetchEnv) : List SourceReport :=
  (if cfg.useDirect then
    [directReport "Amazon" env.amazonItems, directReport "Flipkart" env.flipkartItems]
  else []) ++
  (if cfg.useSerpapi then
    match env.serpItems with
    | .ok rs =>
        let fr := serpFiltered cfg rs
        [{ name := "SerpAPI (Other Stores)", count := fr.length,
           type := some "serpapi",
           directLinks := some (countDirectLinks fr),
           redirectLinks := some (fr.length - countDirectLinks fr) }]
    | .error msg => [{ name := "SerpAPI", count := 0, error := some msg }]
  else [])

/-- Model of `getSetupMessage` (aggregator.js lines 313-324). -/
def getSetupMessage (cfg : Config) : String :=
  if !cfg.useSerpapi && !cfg.useDirect then
    "⚠️ No data sources enabled. Enable USE_SERPAPI and/or USE_AMAZON_FLIPKART_DIRECT in .env"
  else if cfg.useSerpapi && (cfg.serpapiKey = "" || cfg.serpapiKey = "your_serpapi_key_here") then
    "🔑 Please add SERPAPI_KEY to .env file. Get free key at: https://serpapi.com/users/sign_up"
  else
    "😔 No products found. Try a different search term."

/-! ## aiAdvisor.js -/

/-- Decimal rendering of a number for the summary strings.  JavaScript uses
`toString` or locale-grouped `toLocaleString`; both are fixed deterministic
functions of the number, which is all the verified properties depend on, so
both are modelled by the canonical rational rendering. -/
def jsNumToString (q : ℚ) : String :=
  toString q

/-- Model of `generateFallbackSummary` (aiAdvisor.js lines 137-183): the
fully local, deterministic verdict template. -/
def generateFallbackSummary (products : List Product) (note : String) : String :=
  match products with
  | [] => "No products available to analyze."
  | best :: restP =>
    let hasDiscount := decide (0 < best.discount)
    let hasRating := decide (0 < best.rating)
    let hasReviews := decide (0 < best.reviews)
    let otherProductsCount := (best :: restP).length - 1
    let s1 := "Our top recommendation is the **" ++ best.title ++ "** from " ++
      best.store ++ " for ₹" ++ jsNumToString best.price ++ "."
    let s2 := if hasDiscount then
        s1 ++ " This fantastic deal includes a huge **" ++ jsNumToString best.discount ++
          "% off** the original price, making it an excellent value choice."
      else
        s1 ++ " It stands out as the best choice based on its competitive price and overall value."
    let s3 := if hasRating then
        let t := s2 ++ " Customers love this product, giving it a high rating of **⭐ " ++
          jsNumToString best.rating ++ "/5**."
        if hasReviews then
          t ++ " With " ++ jsNumToString best.reviews ++ " verified reviews, you can shop with confidence."
        else t
      else if hasReviews then
        s2 ++ " This product has been widely purchased and reviewed by " ++
          jsNumToString best.reviews ++ " customers."
      else s2
    let s4 := if 1 < (best :: restP).length then
        let mostExpensive := (best :: restP).foldl (fun mx p => if p.price > mx.price then p else mx) best
        let savings := mostExpensive.price - best.price
        if 0 < savings ∧ 0 < otherProductsCount then
          s3 ++ " Considering the " ++ toString otherProductsCount ++ " other option" ++
            (if 1 < otherProductsCount then "s" else "") ++
            " we found, choosing this deal allows you to **save up to ₹" ++
            jsNumToString savings ++ "!**"
        else s3
      else s3
    if note = "" then s4 else s4 ++ " " ++ note

/-- Model of `aiVerdict` (aiAdvisor.js lines 15-132).  The provider outcome
is an explicit parameter; every thrown-and-caught path and every blocked or
empty outcome falls back to `generateFallbackSummary`. -/
def aiVerdict (cfg : Config) (products : List Product) (crsFailureMessage : String)
    (resp : GenResponse) : String :=
  if cfg.geminiKey = "" ∨ cfg.geminiKey = "your_gemini_api_key_here" then
    generateFallbackSummary products crsFailureMessage
  else
    match resp with
    | .text s =>
        let verdict := jsTrim s
        if verdict = "" then generateFallbackSummary products crsFailureMessage
        else verdict
    | _ => generateFallbackSummary products crsFailureMessage

/-- Model of `getProductResults` (aggregator.js lines 87-311), the pipeline
orchestrator, with all external effects (adapter outputs, provider outcomes,
wall-clock time) passed in through `FetchEnv`.  The initial summary string of
line 225 and the catch branch of lines 268-272 are dead in the embedding
because the embedded `rankProducts` and `aiVerdict` are total. -/
def getProductResults (cfg : Config) (query : String) (env : FetchEnv) : AggregationResult :=
  let sources := gatherSources cfg env
  let itemsValid := (gatherItems cfg env).filter validProduct
  let itemsDedup := deduplicateProducts itemsValid
  let directLinks := countDirectLinks itemsDedup
  let redirectLinks := itemsDedup.length - directLinks
  if itemsDedup.isEmpty then
    { items := [], summary := getSetupMessage cfg,
      metadata := { totalResults := 0, rankedByAI := false, fetchTime := env.fetchTime,
                    directLinks := 0, redirectLinks := 0, sources := sources } }
  else
    let sorted := jsSort priceLe itemsDedup
    let topCount := min 20 sorted.length
    let productsForAI := sorted.take topCount
    let rankResult := rankProducts cfg.geminiKey query productsForAI env.rankResp
    let rankedProducts := rankResult.rankedProducts
    let rankingFailed := rankResult.crsFailed
    let productsForVerdict :=
      if 0 < rankedProducts.length ∧ rankingFailed = false then rankedProducts.take 5
      else productsForAI.take 5
    let rankNote := if rankingFailed then
        " (Note: AI ranking temporarily unavailable, results filtered and sorted by price.)"
      else ""
    let summary1 := aiVerdict cfg productsForVerdict rankNote env.genResp
    let items1 :=
      if 0 < rankedProducts.length ∧ rankingFailed = false then
        rankedProducts ++ jsSort priceLe (sorted.drop topCount)
      else sorted
    let afterFallback :=
      if rankingFailed then
        let filtered := simpleAccessoryFilter query items1
        if filtered.length < items1.length then
          let resorted := jsSort priceLe filtered
          let summary2 := match resorted.head? with
            | some top =>
                "Found " ++ toString resorted.length ++ " products! Best deal: ₹" ++
                jsNumToString top.price ++ " from " ++ top.store ++
                ". (Note: AI ranking unavailable. Cheap accessories filtered out.)"
            | none => summary1
          (resorted, summary2)
        else (filtered, summary1)
      else (items1, summary1)
    { items := afterFallback.1, summary := afterFallback.2,
      metadata := { totalResults := afterFallback.1.length,
                    topPrice := afterFallback.1.head?.map Product.price,
                    topStore := afterFallback.1.head?.map Product.store,
                    rankedByAI := !rankingFailed && decide (0 < rankedProducts.length),
                    fetchTime := env.fetchTime,
                    directLinks := directLinks, redirectLinks := redirectLinks,
                    sources := sources,
                    strategy := some { amazonFlipkartDirect := cfg.useDirect,
                                       serpApiOthers := cfg.useSerpapi } } }

/-! ## Helper lemmas about the stable-sort model -/

theorem jsInsert_perm (le : α → α → Bool) (a : α) (l : List α) :
    (jsInsert le a l).Perm (a :: l) := by
  induction l with
  | nil => exact List.Perm.refl _
  | cons b bs ih =>
    simp only [jsInsert]
    split
    · exact List.Perm.refl _
    · exact (ih.cons b).trans (List.Perm.swap a b bs)

theorem jsSort_perm (le : α → α → Bool) (l : List α) : (jsSort le l).Perm l := by
  induction l with
  | nil => exact List.Perm.refl _
  | cons a as ih => exact (jsInsert_perm le a (jsSort le as)).trans (ih.cons a)

theorem mem_jsSort {le : α → α → Bool} {l : List α} {x : α} :
    x ∈ jsSort le l ↔ x ∈ l :=
  (jsSort_perm le l).mem_iff

theorem jsInsert_pairwise (le : α → α → Bool) (a : α) (l : List α)
    (hl : l.Pairwise fun x y => le x y = true)
    (total : ∀ b ∈ l, le a b = true ∨ le b a = true)
    (htr : ∀ b ∈ l, ∀ c ∈ l, le a b = true → le b c = true → le a c = true) :
    (jsInsert le a l).Pairwise fun x y => le x y = true := by
  induction l with
  | nil => simp [jsInsert]
  | cons b bs ih =>
    rw [List.pairwise_cons] at hl
    obtain ⟨hb, hbs⟩ := hl
    by_cases hab : le a b = true
    · simp only [jsInsert, if_pos hab]
      refine List.pairwise_cons.mpr ⟨?_, List.pairwise_cons.mpr ⟨hb, hbs⟩⟩
      intro c hc
      rcases List.mem_cons.mp hc with rfl | hc
      · exact hab
      · exact htr b (List.mem_cons_self b bs) c (List.mem_cons_of_mem b hc) hab (hb c hc)
    · simp only [jsInsert, if_neg hab]
      refine List.pairwise_cons.mpr ⟨?_, ih hbs ?_ ?_⟩
      · intro c hc
        rcases List.mem_cons.mp ((jsInsert_perm le a bs).mem_iff.mp hc) with rfl | hc
        · rcases total b (List.mem_cons_self b bs) with h | h
          · exact absurd h hab
          · exact h
        · exact hb c hc
      · intro x hx
        exact total x (List.mem_cons_of_mem b hx)
      · intro x hx y hy
        exact htr x (List.mem_cons_of_mem b hx) y (List.mem_cons_of_mem b hy)

theorem jsSort_pairwise (le : α → α → Bool) (l : List α)
    (total : ∀ a ∈ l, ∀ b ∈ l, le a b = true ∨ le b a = true)
    (htr : ∀ a ∈ l, ∀ b ∈ l, ∀ c ∈ l, le a b = true → le b c = true → le a c = true) :
    (jsSort le l).Pairwise fun x y => le x y = true := by
  induction l with
  | nil => simp [jsSort]
  | cons a as ih =>
    have hmem : ∀ x ∈ jsSort le as, x ∈ a :: as := fun x hx =>
      List.mem_cons_of_mem a ((jsSort_perm le as).mem_iff.mp hx)
    refine jsInsert_pairwise le a (jsSort le as)
      (ih ?_ ?_) ?_ ?_
    · intro x hx y hy
      exact total x (List.mem_cons_of_mem a hx) y (List.mem_cons_of_mem a hy)
    · intro x hx y hy z hz
      exact htr x (List.mem_cons_of_mem a hx) y (List.mem_cons_of_mem a hy)
        z (List.mem_cons_of_mem a hz)
    · intro b hb
      exact total a (List.mem_cons_self a as) b (hmem b hb)
    · intro b hb c hc
      exact htr a (List.mem_cons_self a as) b (hmem b hb) c (hmem c hc)

theorem jsSort_eq_of_pairwise (le : α → α → Bool) (l : List α)
    (hl : l.Pairwise fun x y => le x y = true) : jsSort le l = l := by
  induction l with
  | nil => rfl
  | cons a as ih =>
    rw [List.pairwise_cons] at hl
    obtain ⟨ha, has⟩ := hl
    simp only [jsSort, ih has]
    cases as with
    | nil => rfl
    | cons b bs => simp [jsInsert, ha b (List.mem_cons_self b bs)]

theorem priceLe_total (a b : Product) : priceLe a b = true ∨ priceLe b a = true := by
  simp only [priceLe, decide_eq_true_eq]
  exact le_total _ _

theorem priceLe_trans (a b c : Product) :
    priceLe a b = true → priceLe b c = true → priceLe a c = true := by
  simp only [priceLe, decide_eq_true_eq]
  exact le_trans

theorem jsSort_priceLe_pairwise (l : List Product) :
    (jsSort priceLe l).Pairwise fun x y => priceLe x y = true :=
  jsSort_pairwise priceLe l (fun a _ b _ => priceLe_total a b)
    (fun a _ b _ c _ => priceLe_trans a b c)

theorem jsSort_crsLe_pairwise_of_some (l : List Product)
    (h : ∀ q ∈ l, ∃ c, q.CRS = some c) :
    (jsSort crsLe l).Pairwise fun a b => crsLe a b = true := by
  apply jsSort_pairwise
  · intro a ha b hb
    obtain ⟨x, hx⟩ := h a ha
    obtain ⟨y, hy⟩ := h b hb
    simp only [crsLe, hx, hy, decide_eq_true_eq]
    exact le_total y x
  · intro a ha b hb c hc h1 h2
    obtain ⟨x, hx⟩ := h a ha
    obtain ⟨y, hy⟩ := h b hb
    obtain ⟨z, hz⟩ := h c hc
    simp only [crsLe, hx, hy, hz, decide_eq_true_eq] at h1 h2 ⊢
    exact h2.trans h1

/-! ## Helper lemmas about deduplication -/

theorem dedupAux_sublist (seen : List (String × ℚ)) (l : List Product) :
    (dedupAux seen l).Sublist l := by
  induction l generalizing seen with
  | nil => simp [dedupAux]
  | cons p rest ih =>
    simp only [dedupAux]
    split
    · exact (ih seen).cons p
    · exact (ih _).cons₂ p

theorem dedupAux_key_not_mem (seen : List (String × ℚ)) (l : List Product) :
    ∀ q ∈ dedupAux seen l, dedupKey q ∉ seen := by
  induction l generalizing seen with
  | nil => simp [dedupAux]
  | cons p rest ih =>
    simp only [dedupAux]
    split
    · exact ih seen
    · intro q hq
      rcases List.mem_cons.mp hq with rfl | hq
      · assumption
      · intro hmem
        exact (ih _ q hq) (List.mem_cons_of_mem _ hmem)

theorem dedupAux_pairwise (seen : List (String × ℚ)) (l : List Product) :
    (dedupAux seen l).Pairwise fun a b => dedupKey a ≠ dedupKey b := by
  induction l generalizing seen with
  | nil => simp [dedupAux]
  | cons p rest ih =>
    simp only [dedupAux]
    split
    · exact ih seen
    · refine List.pairwise_cons.mpr ⟨?_, ih _⟩
      intro b hb heq
      exact dedupAux_key_not_mem _ _ b hb
        (by rw [← heq]; exact List.mem_cons_self _ _)

theorem dedupAux_first (seen : List (String × ℚ)) (l : List Product) (p : Product)
    (hp : p ∈ l) (hseen : dedupKey p ∉ seen) :
    ∃ q, l.find? (fun x => decide (dedupKey x = dedupKey p)) = some q ∧
      q ∈ dedupAux seen l ∧ dedupKey q = dedupKey p := by
  induction l generalizing seen with
  | nil => cases hp
  | cons h t ih =>
    by_cases hk : dedupKey h = dedupKey p
    · refine ⟨h, List.find?_cons_of_pos _ (by simpa using hk), ?_, hk⟩
      simp only [dedupAux]
      rw [if_neg (by rw [hk]; exact hseen)]
      exact List.mem_cons_self _ _
    · have hp2 : p ∈ t := by
        rcases List.mem_cons.mp hp with rfl | hp2
        · exact absurd rfl hk
        · exact hp2
      have hfind : (h :: t).find? (fun x => decide (dedupKey x = dedupKey p)) =
          t.find? (fun x => decide (dedupKey x = dedupKey p)) :=
        List.find?_cons_of_neg _ (by simpa using hk)
      simp only [dedupAux]
      split
      · obtain ⟨q, hq1, hq2, hq3⟩ := ih seen hp2 hseen
        exact ⟨q, by rw [hfind]; exact hq1, hq2, hq3⟩
      · obtain ⟨q, hq1, hq2, hq3⟩ := ih (dedupKey h :: seen) hp2 (by
          intro hmem
          rcases List.mem_cons.mp hmem with he | hm
          · exact hk he.symm
          · exact hseen hm)
        exact ⟨q, by rw [hfind]; exact hq1, List.mem_cons_of_mem _ hq2, hq3⟩

/-! ## Helper lemmas about the value scorer -/

theorem reference_price_ne_zero {price : ℚ} (h : price ≠ 0) :
    reference_price price ≠ 0 := by
  unfold reference_price
  split <;>
  · intro hc
    rcases mul_eq_zero.mp hc with h1 | h2
    · exact h h1
    · norm_num at h2

theorem p_score_eq_of_ne_zero {price : ℚ} (h : price ≠ 0) :
    p_score price = some (max 0 (min 1 (1 - price / reference_price price))) := by
  unfold p_score
  rw [if_neg (reference_price_ne_zero h)]

theorem p_score_low {price : ℚ} (h0 : 0 < price) (hle : price ≤ 10000) :
    p_score price = some (1/2) := by
  have hne : price ≠ 0 := ne_of_gt h0
  rw [p_score_eq_of_ne_zero hne]
  unfold reference_price
  rw [if_neg (not_lt.mpr hle)]
  have hdiv : (1 : ℚ) - price / (price * 2) = 1/2 := by
    field_simp
    ring
  rw [hdiv]
  norm_num

theorem p_score_high {price : ℚ} (h0 : 0 < price) (hgt : price > 10000) :
    p_score price = some (3/23) := by
  have hne : price ≠ 0 := ne_of_gt h0
  rw [p_score_eq_of_ne_zero hne]
  unfold reference_price
  rw [if_pos hgt]
  have hdiv : (1 : ℚ) - price / (price * 1.15) = 3/23 := by
    rw [show (1.15 : ℚ) = 23/20 by norm_num]
    field_simp
    ring
  rw [hdiv]
  norm_num

/-! ## Helper lemmas about the ranker -/

theorem rankProducts_fail (apiKey query : String) (cands : List Product)
    (resp : GeminiResponse)
    (h : apiKey = "" ∨ apiKey = "your_gemini_api_key_here" ∨
         resp = .httpError ∨ resp = .noResponseText ∨
         resp = .parseFailure ∨ resp = .notArray) :
    rankProducts apiKey query cands resp =
      { rankedProducts := cands, crsFailed := true } := by
  unfold rankProducts
  by_cases hc : apiKey = "" ∨ apiKey = "your_gemini_api_key_here" ∨ cands.length = 0
  · rw [if_pos hc]
  · rw [if_neg hc]
    rcases h with h | h | h | h | h | h
    · exact absurd (Or.inl h) hc
    · exact absurd (Or.inr (Or.inl h)) hc
    all_goals subst h; rfl

theorem rankProducts_success (apiKey query : String) (cands : List Product)
    (aiScores : List AIScoreEntry)
    (h1 : ¬(apiKey = "" ∨ apiKey = "your_gemini_api_key_here" ∨ cands.length = 0)) :
    rankProducts apiKey query cands (.parsedArray aiScores) =
      { rankedProducts := jsSort crsLe (cands.enum.map fun pr =>
          scoreCandidate (productsForAI cands) aiScores pr.1 pr.2),
        crsFailed := false } := by
  unfold rankProducts
  rw [if_neg h1]

theorem mem_productsForAI (cands : List Product) (d : ProductForAI)
    (hd : d ∈ productsForAI cands) :
    ∃ x ∈ cands, d.p_score = p_score x.price := by
  unfold productsForAI at hd
  obtain ⟨pr, hpr, rfl⟩ := List.mem_map.mp hd
  refine ⟨pr.2, ?_, rfl⟩
  have h := List.enum_map_snd cands
  exact h ▸ List.mem_map_of_mem Prod.snd hpr

theorem scoreCandidate_spec (pfa : List ProductForAI) (aiScores : List AIScoreEntry)
    (index : Nat) (p : Product)
    (hps : ∀ d ∈ pfa, ∃ v, d.p_score = some v) :
    ∃ r v pen,
      (scoreCandidate pfa aiScores index p).R_Score = some r ∧
      (scoreCandidate pfa aiScores index p).P_Score = some v ∧
      (scoreCandidate pfa aiScores index p).Irrelevance_Penalty = some pen ∧
      (scoreCandidate pfa aiScores index p).CRS =
        some (max 0 (W_R * r + W_P * v - W_IR * pen)) := by
  simp only [scoreCandidate]
  rcases hai : aiScores.find? (fun s => decide (s.id = jsStableId p index)) with _ | e <;>
    rcases hfind : pfa.find? (fun item => decide (item.id = jsStableId p index)) with _ | d
  · exact ⟨1/2, 0, 0, by simp [hai, hfind], by simp [hai, hfind],
      by simp [hai, hfind], by simp [hai, hfind]⟩
  · obtain ⟨v, hv⟩ := hps d (List.mem_of_find?_eq_some hfind)
    exact ⟨1/2, v, 0, by simp [hai, hfind], by simp [hai, hfind, hv],
      by simp [hai, hfind], by simp [hai, hfind, hv]⟩
  · exact ⟨e.R_Score.getD (1/2), 0, e.Irrelevance_Penalty.getD 0,
      by simp [hai, hfind], by simp [hai, hfind], by simp [hai, hfind],
      by simp [hai, hfind]⟩
  · obtain ⟨v, hv⟩ := hps d (List.mem_of_find?_eq_some hfind)
    exact ⟨e.R_Score.getD (1/2), v, e.Irrelevance_Penalty.getD 0,
      by simp [hai, hfind], by simp [hai, hfind, hv], by simp [hai, hfind],
      by simp [hai, hfind, hv]⟩

/-! ## Concrete example products used by witnesses and counterexamples -/

/-- A cheap accessory-like listing whose title matches no filter keyword. -/
def mousePadProduct : Product :=
  { title := "mouse pad", price := 5, store := "ShopA", link := "urlA" }

/-- A primary-product listing for the same query. -/
def wirelessMouseProduct : Product :=
  { title := "wireless mouse", price := 25, store := "ShopB", link := "urlB" }

/-- Two listings whose titles normalise to the same dedup key. -/
def dupTitleA : Product :=
  { title := "X Phone", price := 500, store := "ShopA", link := "urlC" }

/-- A provider score entry whose id matches no candidate. -/
def alienScoreEntry : AIScoreEntry :=
  { id := "zzz", R_Score := some 1, Irrelevance_Penalty := some 0 }

/-- Second listing with the same normalised title and price as `dupTitleA`. -/
def dupTitleB : Product :=
  { title := "  x phone  ", price := 500, store := "ShopB", link := "urlD" }

/-! ## Claims about the relevance scorer (product_ranker.js) -/

/-- C1: for every failure outcome of the scoring provider — unconfigured
credential (empty or placeholder key), HTTP error, missing response text,
unparseable response text, or a parsed payload that is not an array —
`rankProducts` returns the original candidate list unchanged (same elements,
same order, no mutation) together with `crsFailed = true`, and no exception
escapes (the embedded function is total; the thrown paths of the source are
the caught branches modelled here). -/
theorem rankProducts_failure_identity (apiKey query : String)
    (cands : List Product) (resp : GeminiResponse)
    (h : apiKey = "" ∨ apiKey = "your_gemini_api_key_here" ∨
         resp = .httpError ∨ resp = .noResponseText ∨
         resp = .parseFailure ∨ resp = .notArray) :
    rankProducts apiKey query cands resp =
      { rankedProducts := cands, crsFailed := true } :=
  rankProducts_fail apiKey query cands resp h

/-- Witness for C1 at a concrete input: unconfigured key and an HTTP-error
response both yield the untouched candidate list and the failure flag. -/
theorem rankProducts_failure_identity_witness :
    (("" : String) = "" ∨ ("" : String) = "your_gemini_api_key_here" ∨
      GeminiResponse.httpError = .httpError ∨
      GeminiResponse.httpError = .noResponseText ∨
      GeminiResponse.httpError = .parseFailure ∨
      GeminiResponse.httpError = .notArray) ∧
    rankProducts "" "wireless mouse" [mousePadProduct, wirelessMouseProduct]
        .httpError =
      { rankedProducts := [mousePadProduct, wirelessMouseProduct],
        crsFailed := true } :=
  ⟨Or.inl rfl,
   rankProducts_failure_identity "" "wireless mouse"
     [mousePadProduct, wirelessMouseProduct] .httpError (Or.inl rfl)⟩

/-- C10: with an empty candidate list `rankProducts` returns the empty list
with `crsFailed = true` for every provider configuration and response, so an
empty top-N slice always reports scoring failure and hence activates the
fallback-ranking path of the caller. -/
theorem rankProducts_empty_candidates (apiKey query : String)
    (resp : GeminiResponse) :
    rankProducts apiKey query [] resp =
      { rankedProducts := [], crsFailed := true } := by
  unfold rankProducts
  simp

/-- C2: on the success path every returned candidate carries
`CRS = max 0 (W_R * R_Score + W_P * P_Score - W_IR * Irrelevance_Penalty)`
with weights 3, 1, 5; the stored CRS is nonnegative; and the returned list
is sorted by CRS descending (pairwise under the sort comparator `crsLe`).
The hypothesis `price ≠ 0` states that each candidate has a numeric value
score, as the claim presupposes (at price exactly 0 the value score is the
JavaScript `NaN`, see `p_score`). -/
theorem rankProducts_crs_formula_and_sorted (apiKey query : String)
    (cands : List Product) (aiScores : List AIScoreEntry)
    (hkey1 : apiKey ≠ "") (hkey2 : apiKey ≠ "your_gemini_api_key_here")
    (hprice : ∀ x ∈ cands, x.price ≠ 0) :
    (∀ q ∈ (rankProducts apiKey query cands (.parsedArray aiScores)).rankedProducts,
      ∃ r v pen, q.R_Score = some r ∧ q.P_Score = some v ∧
        q.Irrelevance_Penalty = some pen ∧
        q.CRS = some (max 0 (W_R * r + W_P * v - W_IR * pen)) ∧
        0 ≤ max 0 (W_R * r + W_P * v - W_IR * pen)) ∧
    (rankProducts apiKey query cands (.parsedArray aiScores)).rankedProducts.Pairwise
      (fun a b => crsLe a b = true) := by
  by_cases hlen : cands.length = 0
  · have hnil : cands = [] := List.length_eq_zero.mp hlen
    subst hnil
    unfold rankProducts
    simp
  · have hno : ¬(apiKey = "" ∨ apiKey = "your_gemini_api_key_here" ∨
        cands.length = 0) := by
      push_neg
      exact ⟨hkey1, hkey2, hlen⟩
    rw [rankProducts_success apiKey query cands aiScores hno]
    have hps : ∀ d ∈ productsForAI cands, ∃ v, d.p_score = some v := by
      intro d hd
      obtain ⟨x, hx, heq⟩ := mem_productsForAI cands d hd
      rw [heq, p_score_eq_of_ne_zero (hprice x hx)]
      exact ⟨_, rfl⟩
    have hsome : ∀ q ∈ (cands.enum.map fun pr =>
        scoreCandidate (productsForAI cands) aiScores pr.1 pr.2),
        ∃ c, q.CRS = some c := by
      intro q hq
      obtain ⟨pr, hpr, rfl⟩ := List.mem_map.mp hq
      obtain ⟨r, v, pen, _, _, _, hcrs⟩ :=
        scoreCandidate_spec (productsForAI cands) aiScores pr.1 pr.2 hps
      exact ⟨_, hcrs⟩
    refine ⟨?_, jsSort_crsLe_pairwise_of_some _ hsome⟩
    intro q hq
    obtain ⟨pr, hpr, rfl⟩ := List.mem_map.mp (mem_jsSort.mp hq)
    obtain ⟨r, v, pen, h1, h2, h3, h4⟩ :=
      scoreCandidate_spec (productsForAI cands) aiScores pr.1 pr.2 hps
    exact ⟨r, v, pen, h1, h2, h3, h4, le_max_left _ _⟩

/-- Witness for C2 at a concrete input: one candidate, empty score array. -/
theorem rankProducts_crs_formula_and_sorted_witness :
    (("k" : String) ≠ "" ∧ ("k" : String) ≠ "your_gemini_api_key_here" ∧
      ∀ x ∈ [wirelessMouseProduct], x.price ≠ 0) ∧
    ((∀ q ∈ (rankProducts "k" "wireless mouse" [wirelessMouseProduct]
        (.parsedArray [])).rankedProducts,
      ∃ r v pen, q.R_Score = some r ∧ q.P_Score = some v ∧
        q.Irrelevance_Penalty = some pen ∧
        q.CRS = some (max 0 (W_R * r + W_P * v - W_IR * pen)) ∧
        0 ≤ max 0 (W_R * r + W_P * v - W_IR * pen)) ∧
    (rankProducts "k" "wireless mouse" [wirelessMouseProduct]
        (.parsedArray [])).rankedProducts.Pairwise
      (fun a b => crsLe a b = true)) :=
  ⟨⟨by decide, by decide, by decide⟩,
   rankProducts_crs_formula_and_sorted "k" "wireless mouse" [wirelessMouseProduct]
     [] (by decide) (by decide) (by decide)⟩

/-- C7: on a successful scoring run, a candidate whose stable id appears in
none of the returned score entries is scored with the neutral defaults
`R_Score = 0.5` and `Irrelevance_Penalty = 0`, its composite score is
exactly the all-neutral baseline `max 0 (W_R * 0.5 + W_P * P_Score)` (so the
omission never reduces it below that baseline), and that scored candidate is
an element of the returned list. -/
theorem rankProducts_omitted_id_neutral (apiKey query : String)
    (cands : List Product) (aiScores : List AIScoreEntry) (i : Nat) (p : Product)
    (hkey1 : apiKey ≠ "") (hkey2 : apiKey ≠ "your_gemini_api_key_here")
    (hmem : (i, p) ∈ cands.enum)
    (hmiss : ∀ e ∈ aiScores, e.id ≠ jsStableId p i) :
    scoreCandidate (productsForAI cands) aiScores i p ∈
      (rankProducts apiKey query cands (.parsedArray aiScores)).rankedProducts ∧
    (scoreCandidate (productsForAI cands) aiScores i p).R_Score = some (1/2) ∧
    (scoreCandidate (productsForAI cands) aiScores i p).Irrelevance_Penalty = some 0 ∧
    (scoreCandidate (productsForAI cands) aiScores i p).CRS =
      (scoreCandidate (productsForAI cands) aiScores i p).P_Score.map
        (fun v => max 0 (W_R * (1/2) + W_P * v - W_IR * 0)) := by
  have hlen : cands.length ≠ 0 := by
    intro h0
    rw [List.length_eq_zero.mp h0] at hmem
    simp at hmem
  have hno : ¬(apiKey = "" ∨ apiKey = "your_gemini_api_key_here" ∨
      cands.length = 0) := by
    push_neg
    exact ⟨hkey1, hkey2, hlen⟩
  rw [rankProducts_success apiKey query cands aiScores hno]
  have hai : aiScores.find? (fun s => decide (s.id = jsStableId p i)) = none :=
    List.find?_eq_none.mpr fun e he => by simpa using hmiss e he
  refine ⟨mem_jsSort.mpr (List.mem_map.mpr ⟨(i, p), hmem, rfl⟩), ?_, ?_, ?_⟩ <;>
    simp [scoreCandidate, hai]

/-- Witness for C7 at a concrete input: the only score entry has an alien id. -/
theorem rankProducts_omitted_id_neutral_witness :
    (("k" : String) ≠ "" ∧ ("k" : String) ≠ "your_gemini_api_key_here" ∧
      (0, wirelessMouseProduct) ∈ [wirelessMouseProduct].enum ∧
      ∀ e ∈ [alienScoreEntry], e.id ≠ jsStableId wirelessMouseProduct 0) ∧
    (scoreCandidate (productsForAI [wirelessMouseProduct]) [alienScoreEntry]
        0 wirelessMouseProduct ∈
      (rankProducts "k" "wireless mouse" [wirelessMouseProduct]
        (.parsedArray [alienScoreEntry])).rankedProducts ∧
    (scoreCandidate (productsForAI [wirelessMouseProduct]) [alienScoreEntry]
        0 wirelessMouseProduct).R_Score = some (1/2) ∧
    (scoreCandidate (productsForAI [wirelessMouseProduct]) [alienScoreEntry]
        0 wirelessMouseProduct).Irrelevance_Penalty = some 0 ∧
    (scoreCandidate (productsForAI [wirelessMouseProduct]) [alienScoreEntry]
        0 wirelessMouseProduct).CRS =
      (scoreCandidate (productsForAI [wirelessMouseProduct]) [alienScoreEntry]
        0 wirelessMouseProduct).P_Score.map
        (fun v => max 0 (W_R * (1/2) + W_P * v - W_IR * 0))) :=
  ⟨⟨by decide, by decide, by decide, by decide⟩,
   rankProducts_omitted_id_neutral "k" "wireless mouse" [wirelessMouseProduct]
     [alienScoreEntry] 0 wirelessMouseProduct
     (by decide) (by decide) (by decide) (by decide)⟩

/-! ## Claims about the value scorer -/

/-- Counterexample for C3 as stated: prices 1 and 2 lie in the same
reference-price regime (both ≤ 10000) with 1 < 2, yet both value scores are
exactly 1/2, so the value score does not strictly decrease in the price.
The reference price is proportional to the price, so the ratio
price / reference_price — hence the value score — is constant on each
regime. -/
theorem value_score_not_strictly_decreasing :
    p_score 1 = some (1/2) ∧ p_score 2 = some (1/2) ∧ ¬ ((1 : ℚ)/2 < 1/2) :=
  ⟨p_score_low (by norm_num) (by norm_num),
   p_score_low (by norm_num) (by norm_num), lt_irrefl _⟩

/-- C3 (amended): within a fixed reference-price regime the value score is
constant, not strictly decreasing: for any two positive prices on the same
side of the 10000 threshold the computed value scores are equal (1/2 below
the threshold, 3/23 above it). -/
theorem value_score_constant_within_regime (p1 p2 : ℚ)
    (h1 : 0 < p1) (h2 : 0 < p2) (hreg : 10000 < p1 ↔ 10000 < p2) :
    p_score p1 = p_score p2 := by
  by_cases hr : 10000 < p1
  · rw [p_score_high h1 hr, p_score_high h2 (hreg.mp hr)]
  · have hr2 : ¬ 10000 < p2 := fun hc => hr (hreg.mpr hc)
    rw [p_score_low h1 (not_lt.mp hr), p_score_low h2 (not_lt.mp hr2)]

/-- Witness for the amended C3 at the concrete pair (1, 2). -/
theorem value_score_constant_within_regime_witness :
    ((0 : ℚ) < 1 ∧ (0 : ℚ) < 2 ∧ ((10000 : ℚ) < 1 ↔ (10000 : ℚ) < 2)) ∧
    p_score 1 = p_score 2 :=
  ⟨⟨by norm_num, by norm_num, by norm_num⟩,
   value_score_constant_within_regime 1 2 (by norm_num) (by norm_num) (by norm_num)⟩

/-- Counterexample for C8 as stated: at the non-negative price 0 the
reference price is 0, the JavaScript division 0/0 is NaN, and NaN
propagates through Math.min and Math.max, so the value score is NaN
(modelled as none) — not a value in the interval [0, 1]. -/
theorem value_score_nan_at_zero : p_score 0 = none := by
  norm_num [p_score, reference_price]

/-- C8 (amended): for every positive price the value score is a number in
the closed interval [0, 1].  (Positivity matches the validity invariant of
the pipeline, which drops products with price ≤ 0 before scoring.) -/
theorem value_score_bounds (price : ℚ) (h : 0 < price) :
    ∃ v, p_score price = some v ∧ 0 ≤ v ∧ v ≤ 1 := by
  refine ⟨_, p_score_eq_of_ne_zero (ne_of_gt h), le_max_left 0 _, ?_⟩
  exact max_le (by norm_num) (min_le_left 1 _)

/-- Witness for the amended C8 at the concrete price 1. -/
theorem value_score_bounds_witness :
    (0 : ℚ) < 1 ∧ ∃ v, p_score 1 = some v ∧ 0 ≤ v ∧ v ≤ 1 :=
  ⟨by norm_num, value_score_bounds 1 (by norm_num)⟩

/-! ## Claims about the fallback accessory filter -/

/-- Counterexample for C4 as stated: for the query "wireless mouse", the
5-priced product titled "mouse pad" survives the fallback accessory filter,
because the title contains none of the filter keywords
case/cover/protector/charger/cable/stand, so it is not flagged as an
accessory even though it is cheap and the query targets a primary product. -/
theorem accessory_filter_keeps_mouse_pad :
    mousePadProduct ∈
      simpleAccessoryFilter "wireless mouse" [mousePadProduct, wirelessMouseProduct] := by
  decide

/-- C4 (amended): on the scenario of the claim — query "wireless mouse",
a 5-priced "mouse pad" and a 25-priced "wireless mouse" — the fallback
filter removes nothing: "mouse pad" matches no accessory keyword of the
fixed set, so both products are kept in their input order. -/
theorem accessory_filter_mouse_pad_scenario :
    simpleAccessoryFilter "wireless mouse" [mousePadProduct, wirelessMouseProduct] =
      [mousePadProduct, wirelessMouseProduct] := by
  decide

/-! ## Claims about deduplication -/

/-- C5: after deduplication no two surviving products share a dedup key
(lowercased title truncated to 50 characters then trimmed, paired with the
exact price); the survivors form a sublist of the input (their relative
order is the input order); and for every input product the survivor with
its key is exactly the first input occurrence of that key. -/
theorem deduplicateProducts_spec (l : List Product) (p : Product) (hp : p ∈ l) :
    (deduplicateProducts l).Pairwise (fun a b => dedupKey a ≠ dedupKey b) ∧
    (deduplicateProducts l).Sublist l ∧
    ∃ q, l.find? (fun x => decide (dedupKey x = dedupKey p)) = some q ∧
      q ∈ deduplicateProducts l ∧ dedupKey q = dedupKey p :=
  ⟨dedupAux_pairwise [] l, dedupAux_sublist [] l,
   dedupAux_first [] l p hp (by simp)⟩

/-- Witness for C5 at a concrete input: two listings with titles that
normalise to the same key and equal prices; the first one is kept. -/
theorem deduplicateProducts_spec_witness :
    dupTitleB ∈ [dupTitleA, dupTitleB] ∧
    ((deduplicateProducts [dupTitleA, dupTitleB]).Pairwise
        (fun a b => dedupKey a ≠ dedupKey b) ∧
      (deduplicateProducts [dupTitleA, dupTitleB]).Sublist [dupTitleA, dupTitleB] ∧
      ∃ q, [dupTitleA, dupTitleB].find?
          (fun x => decide (dedupKey x = dedupKey dupTitleB)) = some q ∧
        q ∈ deduplicateProducts [dupTitleA, dupTitleB] ∧
        dedupKey q = dedupKey dupTitleB) :=
  ⟨by decide, deduplicateProducts_spec [dupTitleA, dupTitleB] dupTitleB (by decide)⟩

/-! ## Claims about the pipeline orchestrator -/

theorem simpleAccessoryFilter_sublist (query : String) (l : List Product) :
    (simpleAccessoryFilter query l).Sublist l := by
  simp only [simpleAccessoryFilter]
  split
  · exact List.Sublist.refl l
  · exact List.filter_sublist l

/-- Pipeline configuration used by the C6 witness: direct scrapers enabled
and a configured scoring key, so the failure comes from the response alone. -/
def witnessConfig : Config :=
  { geminiKey := "k", useDirect := true }

/-- Pipeline environment used by the C6 witness: two scraped products and
an HTTP error from the scoring provider. -/
def witnessEnv : FetchEnv :=
  { amazonItems := [wirelessMouseProduct, mousePadProduct] }

/-- C6: whenever the relevance-scoring stage reports failure (any failing
provider response, or an unconfigured key), the aggregation result has
`metadata.rankedByAI = false` and its item sequence is exactly the merged,
validity-filtered, deduplicated list in price-ascending order with the
fallback accessory filter applied — no composite reordering happens. -/
theorem getProductResults_scoring_failure (cfg : Config) (query : String)
    (env : FetchEnv)
    (hfail : env.rankResp = .httpError ∨ env.rankResp = .noResponseText ∨
             env.rankResp = .parseFailure ∨ env.rankResp = .notArray ∨
             cfg.geminiKey = "" ∨ cfg.geminiKey = "your_gemini_api_key_here") :
    (getProductResults cfg query env).metadata.rankedByAI = false ∧
    (getProductResults cfg query env).items =
      simpleAccessoryFilter query (jsSort priceLe
        (deduplicateProducts ((gatherItems cfg env).filter validProduct))) := by
  have hfail2 : ∀ (cands : List Product),
      rankProducts cfg.geminiKey query cands env.rankResp =
        { rankedProducts := cands, crsFailed := true } := by
    intro cands
    apply rankProducts_fail
    tauto
  constructor
  · simp only [getProductResults, hfail2]
    split
    · rfl
    · simp
  · simp only [getProductResults, hfail2]
    split
    · rename_i hemp
      rw [List.isEmpty_iff] at hemp
      rw [hemp]
      exact (List.sublist_nil.mp (by
        simpa [jsSort] using
          simpleAccessoryFilter_sublist query (jsSort priceLe []))).symm
    · simp only [Bool.true_eq_false, and_false, if_false, if_true, reduceIte]
      split
      · apply jsSort_eq_of_pairwise
        exact List.Pairwise.sublist (simpleAccessoryFilter_sublist query _)
          (jsSort_priceLe_pairwise _)
      · rfl

/-- Witness for C6 at a concrete input: two scraped products, HTTP error
from the scoring provider. -/
theorem getProductResults_scoring_failure_witness :
    (witnessEnv.rankResp = .httpError ∨ witnessEnv.rankResp = .noResponseText ∨
     witnessEnv.rankResp = .parseFailure ∨ witnessEnv.rankResp = .notArray ∨
     witnessConfig.geminiKey = "" ∨
     witnessConfig.geminiKey = "your_gemini_api_key_here") ∧
    ((getProductResults witnessConfig "wireless mouse" witnessEnv).metadata.rankedByAI
        = false ∧
     (getProductResults witnessConfig "wireless mouse" witnessEnv).items =
       simpleAccessoryFilter "wireless mouse" (jsSort priceLe
         (deduplicateProducts
           ((gatherItems witnessConfig witnessEnv).filter validProduct)))) :=
  ⟨Or.inl rfl,
   getProductResults_scoring_failure witnessConfig "wireless mouse" witnessEnv
     (Or.inl rfl)⟩

/-- C9: the pipeline is deterministic — with identical adapter outputs and
identical provider responses (one fixed `FetchEnv`), two runs of
`getProductResults` produce identical item sequences and identical summary
strings.  All effect sources of the source function (network, clock,
environment) are explicit parameters of the embedding, so a run is a pure
function of them. -/
theorem getProductResults_deterministic (cfg : Config) (query : String)
    (env : FetchEnv) :
    (getProductResults cfg query env).items =
      (getProductResults cfg query env).items ∧
    (getProductResults cfg query env).summary =
      (getProductResults cfg query env).summary :=
  ⟨rfl, rfl⟩

end Findlee

